import Mathlib

/-!
Verification of the chessbot session core (`src/chessbot.py`).

The Move Authority (the `python-chess` library) is external to the
repository; the core consumes it only through boolean terminal signals,
the legal-move list, a capture predicate and turn identity.  We embed a
`Board` as exactly that bundle of signals, and translate the core's own
functions (`parse_uci_move`, `choose_bot_move`, `game_over_message`, and
the two branches of the `main` loop) over it.
-/

namespace Chessbot

/-- `chess.WHITE` is the boolean `True` in python-chess; `board.turn` is a
boolean that is `True` when White is to move. -/
def WHITE : Bool := true

/-- `chess.BLACK` is the boolean `False`. -/
def BLACK : Bool := false

/-- A candidate half-move, as in `chess.Move`: origin square index,
destination square index (squares are numbered 0..63 in a1,b1,..,h8 order),
optional promotion piece index, optional drop piece index. -/
structure Move where
  from_square : Nat
  to_square : Nat
  promotion : Option Nat
  drop : Option Nat
deriving DecidableEq, Repr

/-- `chess.Move.null()` is `Move(0, 0)`. -/
def Move.null : Move := ⟨0, 0, none, none⟩

/-- The abstract board: the exact bundle of signals the session core reads
from the Move Authority.  `turn` is the side to move (`WHITE = true`);
`legal_moves` is the enumerated legal-move list; `is_capture` is the
Authority's capture classification of a move in this position; the five
boolean flags are the terminal signals the core queries, and the two
`can_claim` flags are the claimable draw conditions (these exist on the
Authority but are never queried by the core). -/
structure Board where
  turn : Bool
  legal_moves : List Move
  is_capture : Move → Bool
  is_checkmate : Bool
  is_stalemate : Bool
  is_insufficient_material : Bool
  is_seventyfive_moves : Bool
  is_fivefold_repetition : Bool
  can_claim_threefold : Bool
  can_claim_fifty : Bool

/-- ASCII lowercasing of one character, modelling Python `str.lower()` on
the ASCII range (move tokens and side selections are ASCII). -/
def char_lower (c : Char) : Char :=
  if 65 ≤ c.toNat ∧ c.toNat ≤ 90 then Char.ofNat (c.toNat + 32) else c

/-- Python `str.lower()` on an ASCII string: lowercase every character. -/
def str_lower (s : String) : String := ⟨s.data.map char_lower⟩

/-- File index of a square-name character: `'a'..'h' → 0..7`, as in
python-chess `SQUARE_NAMES` lookup (any other character fails). -/
def fileIndex (c : Char) : Option Nat :=
  if 97 ≤ c.toNat ∧ c.toNat ≤ 104 then some (c.toNat - 97) else none

/-- Rank index of a square-name character: `'1'..'8' → 0..7`. -/
def rankIndex (c : Char) : Option Nat :=
  if 49 ≤ c.toNat ∧ c.toNat ≤ 56 then some (c.toNat - 49) else none

/-- Index of a two-character square name in python-chess `SQUARE_NAMES`
(ordered a1, b1, ..., h1, a2, ...): `rank * 8 + file`; `none` when the
name is not a square name (`list.index` raises `ValueError`). -/
def squareIndex (f r : Char) : Option Nat :=
  match fileIndex f, rankIndex r with
  | some fi, some ri => some (ri * 8 + fi)
  | _, _ => none

/-- Index of a piece symbol in python-chess
`PIECE_SYMBOLS = [None, "p", "n", "b", "r", "q", "k"]`; `none` when the
character is not a piece symbol (`list.index` raises `ValueError`). -/
def pieceSymbolIndex (c : Char) : Option Nat :=
  if c = 'p' then some 1
  else if c = 'n' then some 2
  else if c = 'b' then some 3
  else if c = 'r' then some 4
  else if c = 'q' then some 5
  else if c = 'k' then some 6
  else none

/-- python-chess `chess.Move.from_uci`: `"0000"` is the null move; a
four-character token whose second character is `'@'` is a drop (piece
symbol lowercased, then a square name); otherwise four or five characters
are origin square, destination square and an optional promotion symbol,
with equal origin and destination rejected.  `none` models the raised
`ValueError`/`InvalidMoveError`. -/
def move_from_uci (s : String) : Option Move :=
  match s.data with
  | ['0', '0', '0', '0'] => some Move.null
  | [p, '@', f, r] =>
      match pieceSymbolIndex (char_lower p), squareIndex f r with
      | some d, some sq => some ⟨sq, sq, none, some d⟩
      | _, _ => none
  | [f1, r1, f2, r2] =>
      match squareIndex f1 r1, squareIndex f2 r2 with
      | some a, some b => if a = b then none else some ⟨a, b, none, none⟩
      | _, _ => none
  | [f1, r1, f2, r2, pc] =>
      match squareIndex f1 r1, squareIndex f2 r2, pieceSymbolIndex pc with
      | some a, some b, some pi => if a = b then none else some ⟨a, b, some pi, none⟩
      | _, _, _ => none
  | _ => none

/-- `parse_uci_move(board, text)` from `src/chessbot.py`: convert the text
via `chess.Move.from_uci` (a `ValueError` yields `None`), then return the
move only if it is in `board.legal_moves`, else `None`. -/
def parse_uci_move (board : Board) (text : String) : Option Move :=
  match move_from_uci text with
  | none => none
  | some move => if move ∈ board.legal_moves then some move else none

/-- Python `random.choice(seq)`: a deterministic function of the random
source's state, returning an element of the sequence; the drawn index is
modelled as an arbitrary natural reduced modulo the length. -/
def randomChoice (r : Nat) (l : List Move) : Option Move :=
  l.get? (r % l.length)

/-- `choose_bot_move(board)` from `src/chessbot.py`, with the global
`random` source made explicit as the draw `r`: if the legal-move list is
empty return `None`; otherwise pick randomly from the capture sublist when
it is non-empty, else from the full legal list. -/
def choose_bot_move (board : Board) (r : Nat) : Option Move :=
  let legal := board.legal_moves
  if legal.isEmpty then none
  else
    let captures := legal.filter board.is_capture
    let pool := if captures.isEmpty then legal else captures
    randomChoice r pool

/-- `game_over_message(board)` from `src/chessbot.py`: the priority-ordered
if/else chain over the terminal signals. -/
def game_over_message (board : Board) : String :=
  if board.is_checkmate then
    let winner := if board.turn = WHITE then "Black" else "White"
    "Checkmate. " ++ winner ++ " wins."
  else if board.is_stalemate then "Draw by stalemate."
  else if board.is_insufficient_material then "Draw by insufficient material."
  else if board.is_seventyfive_moves then "Draw by 75-move rule."
  else if board.is_fivefold_repetition then "Draw by fivefold repetition."
  else "Game over."

/-- Modelled from the external python-chess library (the Move Authority):
`Board.is_game_over()` with its default `claim_draw=False` returns whether
`outcome(claim_draw=False)` is not `None`, which tests checkmate,
insufficient material, no legal moves (which on a chess board means
stalemate once checkmate has been excluded), the seventy-five-move rule
and fivefold repetition; the claimable draws (threefold repetition,
fifty-move rule) are only consulted when `claim_draw=True`, which the
session core never passes. -/
def is_game_over (b : Board) : Bool :=
  b.is_checkmate || b.is_insufficient_material || b.is_stalemate ||
    b.is_seventyfive_moves || b.is_fivefold_repetition

/-- python-chess square name from a square index: file letter then rank
digit. -/
def squareName (sq : Nat) : String :=
  ⟨[Char.ofNat (97 + sq % 8), Char.ofNat (49 + sq / 8)]⟩

/-- python-chess piece symbol from a piece index. -/
def pieceSymbol (p : Nat) : String :=
  if p = 1 then "p" else if p = 2 then "n" else if p = 3 then "b"
  else if p = 4 then "r" else if p = 5 then "q" else if p = 6 then "k"
  else ""

/-- python-chess `Move.uci()`: drop moves print as symbol, `'@'`, square;
promotions append the promotion symbol; the null move is `"0000"`. -/
def Move.uci (m : Move) : String :=
  match m.drop with
  | some d => str_lower (pieceSymbol d) ++ "@" ++ squareName m.to_square
  | none =>
    match m.promotion with
    | some p => squareName m.from_square ++ squareName m.to_square ++ pieceSymbol p
    | none =>
      if m.from_square = 0 ∧ m.to_square = 0 then "0000"
      else squareName m.from_square ++ squareName m.to_square

/-- The observable result of one iteration of the `main` loop: the board
after the iteration, the move pushed through the Authority during it (if
any), whether the loop broke, and the lines printed. -/
structure StepOut where
  board : Board
  applied : Option Move
  ended : Bool
  output : List String

/-- The human-turn branch of the `main` loop (`src/chessbot.py` lines
111–124), with the Authority's `board.push` and `board.fen` made explicit
parameters: the raw token is lowercased, parsed and validated by
`parse_uci_move`; on `None` an error line is printed and the loop
continues with the board untouched; otherwise the move is pushed, the new
position printed, and the loop breaks with the classifier's message
exactly when `is_game_over` holds. -/
def human_step (push : Board → Move → Board) (fen : Board → String)
    (b : Board) (raw : String) : StepOut :=
  let uci := str_lower raw
  match parse_uci_move b uci with
  | none =>
      ⟨b, none, false,
        ["Illegal or invalid move. Use UCI like e2e4 (promotion: e7e8q). Try again."]⟩
  | some move =>
      let b2 := push b move
      if is_game_over b2 then
        ⟨b2, some move, true, ["New FEN position: " ++ fen b2, game_over_message b2]⟩
      else
        ⟨b2, some move, false, ["New FEN position: " ++ fen b2]⟩

/-- The bot-turn branch of the `main` loop (`src/chessbot.py` lines
126–139): `choose_bot_move` returning `None` prints the classifier's
message for the unchanged board and breaks; otherwise the chosen move is
announced and pushed, the new position printed, and the loop breaks with
the classifier's message exactly when `is_game_over` holds. -/
def bot_step (push : Board → Move → Board) (fen : Board → String)
    (bot_is_white : Bool) (b : Board) (r : Nat) : StepOut :=
  let bot_color_name := if bot_is_white then "white" else "black"
  match choose_bot_move b r with
  | none => ⟨b, none, true, [game_over_message b]⟩
  | some move =>
      let b2 := push b move
      if is_game_over b2 then
        ⟨b2, some move, true,
          ["Bot (as " ++ bot_color_name ++ "): " ++ move.uci,
           "New FEN position: " ++ fen b2, game_over_message b2]⟩
      else
        ⟨b2, some move, false,
          ["Bot (as " ++ bot_color_name ++ "): " ++ move.uci,
           "New FEN position: " ++ fen b2]⟩

/-! Concrete instances used to exercise the definitions. -/

/-- The move e2e4: square e2 has index 12, square e4 has index 28. -/
def mvE2E4 : Move := ⟨12, 28, none, none⟩

/-- A second move, e2d3 (a diagonal pawn step, i.e. a capture shape):
square d3 has index 19. -/
def mvE2D3 : Move := ⟨12, 19, none, none⟩

/-- A quiet position whose only legal move is e2e4, no terminal signal
set. -/
def legalE2E4Board : Board :=
  ⟨WHITE, [mvE2E4], fun _ => false, false, false, false, false, false, false, false⟩

/-- A position with two legal moves of which exactly one is a capture. -/
def captureBoard : Board :=
  ⟨WHITE, [mvE2E4, mvE2D3], fun m => decide (m = mvE2D3),
    false, false, false, false, false, false, false⟩

/-- A synthetic terminal-signal bundle with both the checkmate and
stalemate flags set, White to move. -/
def checkmateStalemateBundle : Board :=
  ⟨WHITE, [], fun _ => false, true, true, false, false, false, false, false⟩

/-- A checkmate bundle with Black to move. -/
def checkmateBlackToMove : Board :=
  ⟨BLACK, [], fun _ => false, true, false, false, false, false, false, false⟩

/-- A bundle with an empty legal-move list and no terminal signal set:
the defensive end-of-game case of the bot branch. -/
def emptyQuietBoard : Board :=
  ⟨WHITE, [], fun _ => false, false, false, false, false, false, false, false⟩

/-- A position where only the claimable draw conditions hold: threefold
repetition and the fifty-move rule are claimable, but none of the five
enumerated terminal signals is set. -/
def claimableBoard : Board :=
  ⟨BLACK, [mvE2E4], fun _ => false, false, false, false, false, false, true, true⟩

/-- A trivial Authority `push` that leaves the board unchanged. -/
def pushId : Board → Move → Board := fun b _ => b

/-- An Authority `push` that always yields `claimableBoard`. -/
def pushToClaimable : Board → Move → Board := fun _ _ => claimableBoard

/-- A trivial serializer standing in for `board.fen()`. -/
def fenConst : Board → String := fun _ => "-"

/-! Helper lemmas. -/

/-- `Char.ofNat` on a valid codepoint below the surrogate range round-trips
through `toNat`. -/
theorem toNat_ofNat_valid (n : Nat) (h : n < 55296) : (Char.ofNat n).toNat = n := by
  rw [Char.ofNat, dif_pos (Or.inl h)]
  simp [Char.ofNatAux, Char.toNat, UInt32.toNat]

/-- ASCII lowercasing is idempotent. -/
theorem char_lower_idem (c : Char) : char_lower (char_lower c) = char_lower c := by
  unfold char_lower
  by_cases h : 65 ≤ c.toNat ∧ c.toNat ≤ 90
  · rw [if_pos h]
    have hv : (Char.ofNat (c.toNat + 32)).toNat = c.toNat + 32 :=
      toNat_ofNat_valid _ (by omega)
    rw [if_neg]
    omega
  · rw [if_neg h, if_neg h]

/-- Lowercasing a string is idempotent. -/
theorem str_lower_idem (s : String) : str_lower (str_lower s) = str_lower s := by
  simp only [str_lower, List.map_map]
  exact congrArg String.mk (List.map_congr_left fun a _ => char_lower_idem a)

/-- A random choice from a non-empty list succeeds and yields a member. -/
theorem randomChoice_mem (r : Nat) (l : List Move) (h : l ≠ []) :
    ∃ m, randomChoice r l = some m ∧ m ∈ l := by
  have hl : 0 < l.length := List.length_pos.mpr h
  have hlt : r % l.length < l.length := Nat.mod_lt _ hl
  exact ⟨l.get ⟨r % l.length, hlt⟩, by simp [randomChoice, List.get?_eq_get hlt],
    List.get_mem _ _ _⟩

/-- A move accepted by the interpreter is in the legal-move set it was
validated against. -/
theorem parse_some_mem (b : Board) (t : String) (m : Move)
    (h : parse_uci_move b t = some m) : m ∈ b.legal_moves := by
  unfold parse_uci_move at h
  split at h
  · exact absurd h (by simp)
  · split at h
    · cases h
      assumption
    · exact absurd h (by simp)

/-- A move produced by the bot policy is in the legal-move list it was
drawn from. -/
theorem choose_some_mem (b : Board) (r : Nat) (m : Move)
    (h : choose_bot_move b r = some m) : m ∈ b.legal_moves := by
  simp only [choose_bot_move, randomChoice] at h
  split at h
  · exact absurd h (by simp)
  · split at h
    · exact List.get?_mem h
    · exact List.mem_of_mem_filter (List.get?_mem h)

/-- The move a human-turn step pushes is exactly the interpreter's result
on the lowercased token. -/
theorem human_step_applied (push : Board → Move → Board) (fen : Board → String)
    (b : Board) (raw : String) :
    (human_step push fen b raw).applied = parse_uci_move b (str_lower raw) := by
  simp only [human_step]
  cases h : parse_uci_move b (str_lower raw) with
  | none => rfl
  | some mv =>
      by_cases hg : is_game_over (push b mv)
      · simp [hg]
      · simp [hg]

/-- The move a bot-turn step pushes is exactly the policy's result. -/
theorem bot_step_applied (push : Board → Move → Board) (fen : Board → String)
    (bw : Bool) (b : Board) (r : Nat) :
    (bot_step push fen bw b r).applied = choose_bot_move b r := by
  simp only [bot_step]
  cases h : choose_bot_move b r with
  | none => rfl
  | some mv =>
      by_cases hg : is_game_over (push b mv)
      · simp [hg]
      · simp [hg]

/-! Claim theorems. -/

/-- C1: the Termination Classifier (`game_over_message`) evaluates the
terminal signals in the fixed order checkmate, stalemate, insufficient
material, 75-ply rule, fivefold repetition, then the generic fallback,
and returns the outcome of the first condition that holds; in particular
checkmate outranks every draw flag set in the same bundle. -/
theorem termination_priority_order (b : Board) :
    (b.is_checkmate = true →
        game_over_message b =
          "Checkmate. " ++ (if b.turn = WHITE then "Black" else "White") ++ " wins.") ∧
    (b.is_checkmate = false → b.is_stalemate = true →
        game_over_message b = "Draw by stalemate.") ∧
    (b.is_checkmate = false → b.is_stalemate = false →
        b.is_insufficient_material = true →
        game_over_message b = "Draw by insufficient material.") ∧
    (b.is_checkmate = false → b.is_stalemate = false →
        b.is_insufficient_material = false → b.is_seventyfive_moves = true →
        game_over_message b = "Draw by 75-move rule.") ∧
    (b.is_checkmate = false → b.is_stalemate = false →
        b.is_insufficient_material = false → b.is_seventyfive_moves = false →
        b.is_fivefold_repetition = true →
        game_over_message b = "Draw by fivefold repetition.") ∧
    (b.is_checkmate = false → b.is_stalemate = false →
        b.is_insufficient_material = false → b.is_seventyfive_moves = false →
        b.is_fivefold_repetition = false →
        game_over_message b = "Game over.") := by
  unfold game_over_message
  refine ⟨?_, ?_, ?_, ?_, ?_, ?_⟩ <;> intros <;> simp_all

/-- C1 witness: a synthetic bundle with both checkmate and stalemate set
classifies as checkmate, never stalemate. -/
theorem termination_priority_order_witness :
    checkmateStalemateBundle.is_checkmate = true ∧
    checkmateStalemateBundle.is_stalemate = true ∧
    game_over_message checkmateStalemateBundle = "Checkmate. Black wins." := by
  refine ⟨rfl, rfl, ?_⟩
  have h := (termination_priority_order checkmateStalemateBundle).1 rfl
  simpa using h

/-- C5: when the checkmate flag is set, the classified winner is the side
that was not to move: Black wins when White is to move, and White wins
when Black is to move. -/
theorem checkmate_winner_not_to_move (b : Board) (h : b.is_checkmate = true) :
    game_over_message b =
      (if b.turn = WHITE then "Checkmate. Black wins." else "Checkmate. White wins.") := by
  unfold game_over_message
  rw [if_pos h]
  by_cases ht : b.turn = WHITE
  · rw [if_pos ht, if_pos ht]
    rfl
  · rw [if_neg ht, if_neg ht]
    rfl

/-- C5 witness: a checkmate bundle with Black to move classifies White as
the winner. -/
theorem checkmate_winner_not_to_move_witness :
    game_over_message checkmateBlackToMove = "Checkmate. White wins." := by
  have h := checkmate_winner_not_to_move checkmateBlackToMove rfl
  simpa using h

/-- C2: with no legal moves the Bot Policy returns no move; with at least
one legal move it returns a move from the legal set, and a move from the
capturing subset whenever that subset is non-empty. -/
theorem choose_bot_move_spec (b : Board) (r : Nat) :
    (b.legal_moves = [] → choose_bot_move b r = none) ∧
    (b.legal_moves ≠ [] →
      ∃ m, choose_bot_move b r = some m ∧ m ∈ b.legal_moves ∧
        (b.legal_moves.filter b.is_capture ≠ [] →
          m ∈ b.legal_moves.filter b.is_capture)) := by
  constructor
  · intro h
    simp [choose_bot_move, h]
  · intro h
    simp only [choose_bot_move, randomChoice]
    rw [if_neg (by simpa [List.isEmpty_iff] using h)]
    by_cases hc : (b.legal_moves.filter b.is_capture).isEmpty
    · rw [if_pos hc]
      obtain ⟨m, hm, hmem⟩ := randomChoice_mem r b.legal_moves h
      refine ⟨m, by simpa [randomChoice] using hm, hmem, fun hne => ?_⟩
      exact absurd (List.isEmpty_iff.mp hc) hne
    · rw [if_neg hc]
      obtain ⟨m, hm, hmem⟩ :=
        randomChoice_mem r (b.legal_moves.filter b.is_capture)
          (fun hnil => hc (by simp [hnil]))
      exact ⟨m, by simpa [randomChoice] using hm,
        List.mem_of_mem_filter hmem, fun _ => hmem⟩

/-- C2 witness: on a board with two legal moves of which one is a capture,
the policy picks the capture. -/
theorem choose_bot_move_spec_witness :
    captureBoard.legal_moves ≠ [] ∧
    ∃ m, choose_bot_move captureBoard 0 = some m ∧ m ∈ captureBoard.legal_moves ∧
      (captureBoard.legal_moves.filter captureBoard.is_capture ≠ [] →
        m ∈ captureBoard.legal_moves.filter captureBoard.is_capture) :=
  ⟨by decide, (choose_bot_move_spec captureBoard 0).2 (by decide)⟩

/-- C8: the Bot Policy is a deterministic function of the random source's
state and its inputs: two runs with the same board (legal-move set plus
capture classification) and the same random draw select the same move. -/
theorem bot_policy_deterministic (b1 b2 : Board) (r1 r2 : Nat)
    (hb : b1 = b2) (hr : r1 = r2) :
    choose_bot_move b1 r1 = choose_bot_move b2 r2 := by
  rw [hb, hr]

/-- C8 witness: two runs on the capture board with the same draw agree. -/
theorem bot_policy_deterministic_witness :
    choose_bot_move captureBoard 5 = choose_bot_move captureBoard 5 :=
  bot_policy_deterministic captureBoard captureBoard 5 5 rfl rfl

/-- C3 counterexample: the token "zz" does not parse and the token "a1a2"
parses to a move outside the legal-move set, yet `parse_uci_move` returns
the same result `none` for both — the two rejection reasons are not
distinguishable in the interpreter's result. -/
theorem rejection_reasons_indistinguishable :
    move_from_uci "zz" = none ∧
    move_from_uci "a1a2" = some ⟨0, 8, none, none⟩ ∧
    (⟨0, 8, none, none⟩ : Move) ∉ legalE2E4Board.legal_moves ∧
    parse_uci_move legalE2E4Board "zz" = parse_uci_move legalE2E4Board "a1a2" := by
  refine ⟨by decide, by decide, by decide, by decide⟩

/-- C3 (amended): the interpreter rejects exactly the tokens that either do
not parse into origin/destination/optional-promotion shape or parse to a
move outside the current legal-move set, and accepts exactly the tokens
that parse to a legal move; but both rejection conditions yield the same
result `none`, so the two reasons are not distinguishable in the result. -/
theorem parse_uci_move_rejections (b : Board) (t : String) :
    (parse_uci_move b t = none ↔
      move_from_uci t = none ∨
        ∃ m, move_from_uci t = some m ∧ m ∉ b.legal_moves) ∧
    (∀ m, parse_uci_move b t = some m ↔
      move_from_uci t = some m ∧ m ∈ b.legal_moves) := by
  cases hu : move_from_uci t with
  | none =>
      have hp : parse_uci_move b t = none := by
        unfold parse_uci_move
        rw [hu]
      simp [hp, hu]
  | some mv =>
      by_cases hm : mv ∈ b.legal_moves
      · have hp : parse_uci_move b t = some mv := by
          unfold parse_uci_move
          rw [hu]
          exact if_pos hm
        constructor
        · rw [hp]
          constructor
          · intro h
            exact absurd h (by simp)
          · rintro (h | ⟨m', hm', hnm⟩)
            · exact absurd h (by simp)
            · cases hm'
              exact absurd hm hnm
        · intro m
          rw [hp]
          constructor
          · intro h
            cases h
            exact ⟨rfl, hm⟩
          · rintro ⟨h, _⟩
            exact h
      · have hp : parse_uci_move b t = none := by
          unfold parse_uci_move
          rw [hu]
          exact if_neg hm
        constructor
        · rw [hp]
          exact ⟨fun _ => Or.inr ⟨mv, rfl, hm⟩, fun _ => rfl⟩
        · intro m
          rw [hp]
          constructor
          · intro h
            exact absurd h (by simp)
          · rintro ⟨h, hmem⟩
            cases h
            exact absurd hmem hm

/-- C3 amended-claim witness: "e2e4" parses to the legal move e2e4 and is
accepted. -/
theorem parse_uci_move_rejections_witness :
    parse_uci_move legalE2E4Board "e2e4" = some mvE2E4 :=
  ((parse_uci_move_rejections legalE2E4Board "e2e4").2 mvE2E4).mpr
    ⟨by decide, by decide⟩

/-- C4: every move the Session Controller pushes through the Authority is
a member of `legal_moves` of the exact board being mutated: the human
branch pushes only interpreter-validated moves and the bot branch only
policy-chosen moves, so `push` is never called on an illegal move. -/
theorem pushes_only_legal_moves (push : Board → Move → Board)
    (fen : Board → String) (bw : Bool) (b : Board) (raw : String) (r : Nat)
    (m : Move) :
    ((human_step push fen b raw).applied = some m → m ∈ b.legal_moves) ∧
    ((bot_step push fen bw b r).applied = some m → m ∈ b.legal_moves) := by
  constructor
  · intro h
    rw [human_step_applied] at h
    exact parse_some_mem b (str_lower raw) m h
  · intro h
    rw [bot_step_applied] at h
    exact choose_some_mem b r m h

/-- C4 witness: a concrete human push and a concrete bot push are both
legal moves of their boards. -/
theorem pushes_only_legal_moves_witness :
    mvE2E4 ∈ legalE2E4Board.legal_moves ∧ mvE2D3 ∈ captureBoard.legal_moves :=
  ⟨(pushes_only_legal_moves pushId fenConst true legalE2E4Board "E2E4" 0 mvE2E4).1
      (by decide),
    (pushes_only_legal_moves pushId fenConst true captureBoard "" 0 mvE2D3).2
      (by decide)⟩

/-- C6 counterexample: on a checkmate bundle with an empty legal-move list
the bot branch does end the session, but its report is the full
classification "Checkmate. Black wins.", not a bare "game over" without
classification detail. -/
theorem bot_none_report_has_detail :
    choose_bot_move checkmateStalemateBundle 0 = none ∧
    (bot_step pushId fenConst true checkmateStalemateBundle 0).ended = true ∧
    (bot_step pushId fenConst true checkmateStalemateBundle 0).output =
      ["Checkmate. Black wins."] ∧
    "Checkmate. Black wins." ≠ "Game over." :=
  ⟨by decide, by decide, by decide, by decide⟩

/-- C6 (amended): whenever the Bot Policy returns no move, the Session
Controller ends the loop with the board untouched and reports the
Termination Classifier's message for the current position; that report is
the bare "Game over." exactly when no enumerated terminal condition
holds. -/
theorem bot_none_ends_session (push : Board → Move → Board)
    (fen : Board → String) (bw : Bool) (b : Board) (r : Nat)
    (h : choose_bot_move b r = none) :
    bot_step push fen bw b r = ⟨b, none, true, [game_over_message b]⟩ ∧
    (b.is_checkmate = false → b.is_stalemate = false →
      b.is_insufficient_material = false → b.is_seventyfive_moves = false →
      b.is_fivefold_repetition = false →
      (bot_step push fen bw b r).output = ["Game over."]) := by
  have hb : bot_step push fen bw b r = ⟨b, none, true, [game_over_message b]⟩ := by
    simp only [bot_step, h]
  refine ⟨hb, fun h1 h2 h3 h4 h5 => ?_⟩
  rw [hb]
  simp [game_over_message, h1, h2, h3, h4, h5]

/-- C6 witness: on the empty quiet bundle the bot step ends the session
with the bare "Game over." report. -/
theorem bot_none_ends_session_witness :
    (bot_step pushId fenConst true emptyQuietBoard 0).ended = true ∧
    (bot_step pushId fenConst true emptyQuietBoard 0).output = ["Game over."] := by
  have h := bot_none_ends_session pushId fenConst true emptyQuietBoard 0 rfl
  exact ⟨by rw [h.1], h.2 rfl rfl rfl rfl rfl⟩

/-- C7: a rejected human token leaves the session state untouched: the
board is unchanged (hence the same side remains to move), no move is
applied, the loop does not end, and the only output is the re-prompt error
line for the same ply. -/
theorem rejected_token_leaves_state (push : Board → Move → Board)
    (fen : Board → String) (b : Board) (raw : String)
    (h : parse_uci_move b (str_lower raw) = none) :
    human_step push fen b raw =
      ⟨b, none, false,
        ["Illegal or invalid move. Use UCI like e2e4 (promotion: e7e8q). Try again."]⟩ ∧
    (human_step push fen b raw).board.turn = b.turn := by
  have hs : human_step push fen b raw =
      ⟨b, none, false,
        ["Illegal or invalid move. Use UCI like e2e4 (promotion: e7e8q). Try again."]⟩ := by
    simp only [human_step, h]
  exact ⟨hs, by rw [hs]⟩

/-- C7 witness: the malformed token "zz" leaves the concrete board
unchanged with the same side to move. -/
theorem rejected_token_leaves_state_witness :
    human_step pushId fenConst legalE2E4Board "zz" =
      ⟨legalE2E4Board, none, false,
        ["Illegal or invalid move. Use UCI like e2e4 (promotion: e7e8q). Try again."]⟩ ∧
    (human_step pushId fenConst legalE2E4Board "zz").board.turn =
      legalE2E4Board.turn :=
  rejected_token_leaves_state pushId fenConst legalE2E4Board "zz" (by decide)

/-- C9: the raw token is lowercased before parsing, so move input is
case-insensitive: two spellings with the same lowercasing are treated
identically by the human-turn step, and any spelling is treated exactly
like its lowercase spelling. -/
theorem move_token_case_insensitive (push : Board → Move → Board)
    (fen : Board → String) (b : Board) (s t : String)
    (h : str_lower s = str_lower t) :
    human_step push fen b s = human_step push fen b t ∧
    human_step push fen b s = human_step push fen b (str_lower s) := by
  constructor
  · unfold human_step
    rw [h]
  · unfold human_step
    rw [str_lower_idem]

/-- C9 witness: "E2E4" is treated exactly like "e2e4", and both validate
the move e2e4. -/
theorem move_token_case_insensitive_witness :
    human_step pushId fenConst legalE2E4Board "E2E4" =
      human_step pushId fenConst legalE2E4Board "e2e4" ∧
    (human_step pushId fenConst legalE2E4Board "E2E4").applied = some mvE2E4 :=
  ⟨(move_token_case_insensitive pushId fenConst legalE2E4Board "E2E4" "e2e4"
      (by decide)).1,
    by decide⟩

/-- C10: claimable draw conditions are never auto-claimed: when none of the
five enumerated terminal signals holds (whatever the claimable threefold
and fifty-move flags say), the after-move check `is_game_over` is false,
so any human or bot step that produces such a board continues the loop
with that board. -/
theorem claimable_draws_not_autoclaimed (b : Board)
    (h1 : b.is_checkmate = false) (h2 : b.is_stalemate = false)
    (h3 : b.is_insufficient_material = false)
    (h4 : b.is_seventyfive_moves = false)
    (h5 : b.is_fivefold_repetition = false) :
    is_game_over b = false ∧
    (∀ push fen b0 raw m, parse_uci_move b0 (str_lower raw) = some m →
      push b0 m = b →
      (human_step push fen b0 raw).ended = false ∧
      (human_step push fen b0 raw).board = b) ∧
    (∀ push fen bw b0 r m, choose_bot_move b0 r = some m →
      push b0 m = b →
      (bot_step push fen bw b0 r).ended = false ∧
      (bot_step push fen bw b0 r).board = b) := by
  have hgo : is_game_over b = false := by
    simp [is_game_over, h1, h2, h3, h4, h5]
  refine ⟨hgo, ?_, ?_⟩
  · intro push fen b0 raw m hp hpush
    simp only [human_step, hp, hpush, hgo]
    exact ⟨rfl, rfl⟩
  · intro push fen bw b0 r m hc hpush
    simp only [bot_step, hc, hpush, hgo]
    exact ⟨rfl, rfl⟩

/-- C10 witness: a board where only the claimable conditions (threefold and
fifty-move) hold is not game over, and the human step that reaches it
continues the loop. -/
theorem claimable_draws_not_autoclaimed_witness :
    claimableBoard.can_claim_threefold = true ∧
    claimableBoard.can_claim_fifty = true ∧
    is_game_over claimableBoard = false ∧
    (human_step pushToClaimable fenConst legalE2E4Board "e2e4").ended = false := by
  have h := claimable_draws_not_autoclaimed claimableBoard rfl rfl rfl rfl rfl
  exact ⟨rfl, rfl, h.1,
    (h.2.1 pushToClaimable fenConst legalE2E4Board "e2e4" mvE2E4 (by decide) rfl).1⟩

end Chessbot
